import Mathlib

/-!
Verification of `jenkins-to-graphite.py`: a one-shot pipeline that fetches
operational counters from a Jenkins server and pushes them to Graphite over
a plaintext line protocol.  The definitions below are a shallow embedding of
the Python source: dynamic dictionaries returned by Jenkins are embedded as
structures of optional fields (exactly the fields the code reads via `.get`
with a default), the Graphite batch (`self.data`, a Python dict) is an
association list with in-place update, and I/O effects (HTTP transport,
`ast.literal_eval`, the socket) are passed in as explicit fallible
parameters of type `Except`.
-/

namespace JenkinsToGraphite

/-- A literal structure value, as produced by `ast.literal_eval` on a
response body (numbers, strings, booleans, nested sequences and mappings). -/
inductive RawValue where
  | int (i : Int)
  | str (s : String)
  | bool (b : Bool)
  | list (elems : List RawValue)
  | dict (entries : List (String × RawValue))

/-- An untyped nested mapping returned by a data source. -/
def RawRecord := List (String × RawValue)

/-- The relevant parts of an HTTP response from `requests.get`:
`response.status_code` and `response.text`. -/
structure HttpResponse where
  status_code : Nat
  text : String
deriving DecidableEq

/-- `JenkinsServer.get_raw_data` (source lines 68-80), with the two external
effects made explicit: `response` is the outcome of `requests.get` (an
`Except.error` models a raised transport exception, which the source does not
catch), and `literal_eval` is `ast.literal_eval` applied to the body (an
`Except.error` models the exception it raises on a malformed body, which the
source does not catch either).  Only a non-success status code is handled:
it is logged and an empty record is returned. -/
def get_raw_data (response : Except String HttpResponse)
    (literal_eval : String → Except String RawRecord) : Except String RawRecord :=
  match response with
  | .error e => .error e
  | .ok r =>
      if r.status_code ≠ 200 then
        .ok ([] : RawRecord)
      else
        literal_eval r.text

/-- An entry of the build queue record's `items` sequence; only the count of
entries is ever read (line 139), so the content is irrelevant. -/
inductive QueueItem | mk
deriving DecidableEq

/-- A build event of a timeline record's `events` sequence; only the count
is read (lines 141-144). -/
inductive BuildEvent | mk
deriving DecidableEq

/-- One entry of the executor record's `computer` sequence.  The code reads
only `j.get('offline')` (line 155): absent yields `None` (falsy). -/
structure ComputerEntry where
  offline : Option Bool
deriving DecidableEq

/-- The executor-summary record fetched from `computer` (line 134); fields
the code reads, each optional since absent keys are the normal case. -/
structure ExecutorInfo where
  totalExecutors : Option Int
  busyExecutors : Option Int
  computer : Option (List ComputerEntry)

/-- The queue record fetched from `queue` (line 135). -/
structure QueueInfo where
  items : Option (List QueueItem)

/-- A timeline record (`build_info_min` / `build_info_hour`, lines 136-137). -/
structure BuildInfo where
  events : Option (List BuildEvent)

/-- A label record fetched from `label/<name>` (line 162). -/
structure LabelInfo where
  tiedJobs : Option (List Unit)
  nodes : Option (List Unit)
  totalExecutors : Option Int
  busyExecutors : Option Int

/-- One job of a view's `jobs` sequence; the code reads `j.get('color', 0)`
and compares it with the strings `blue`/`red`/`yellow` (lines 178-180).
An absent color (default `0`) compares unequal to every string, exactly as
`none` does here. -/
structure Job where
  color : Option String
deriving DecidableEq

/-- A view record fetched from `/view/<name>` (line 176). -/
structure ViewInfo where
  jobs : Option (List Job)

/-- The data a `JenkinsServer` hands to one gathering pass: the results of
the fetches on lines 134-137, plus the per-label and per-view fetches
(lines 162, 176) as functions of the label / view name. -/
structure JenkinsData where
  computer : ExecutorInfo
  queue : QueueInfo
  build_info_min : BuildInfo
  build_info_hour : BuildInfo
  labelInfo : String → LabelInfo
  viewInfo : String → ViewInfo

/-- The configuration read by `gather_and_send_stats`: `opts['--labels']`
(a possibly empty list of label names) and `opts['--jobs']` (an optional
view name; docopt yields `None` when the option is not passed). -/
structure Opts where
  labels : List String
  jobs : Option String

/-- Python dict assignment `d[key] = value` on an association list:
replace the entry in place if the key is present, else append. -/
def setEntry (l : List (String × Int)) (key : String) (value : Int) :
    List (String × Int) :=
  match l with
  | [] => [(key, value)]
  | (k, v) :: rest =>
      if k = key then (key, value) :: rest else (k, v) :: setEntry rest key value

/-- `GraphiteServer` (lines 98-129): destination address, port, metric
name root (field `pfx`, the source's attribute set on line 102), and the
accumulated batch `self.data`. -/
structure GraphiteServer where
  server : String
  port : Int
  pfx : String
  data : List (String × Int)

/-- Python `s.rstrip('.')`: remove all trailing `.` characters. -/
def rstripDot (s : String) : String :=
  String.mk (List.reverse (List.dropWhile (fun c => c = '.') s.data.reverse))

/-- `GraphiteServer.__init__` (lines 99-104): the configured metric root is
stripped of trailing dots (`rstrip('.')`) and the batch starts empty. -/
def GraphiteServer.init (server : String) (port : Int) (p : String) :
    GraphiteServer :=
  { server := server, port := port, pfx := rstripDot p, data := [] }

/-- `GraphiteServer.add_data` (lines 106-107):
`self.data["%s.%s" % (self.prefix, key)] = value`. -/
def GraphiteServer.add_data (g : GraphiteServer) (key : String) (value : Int) :
    GraphiteServer :=
  { g with data := setEntry g.data (g.pfx ++ "." ++ key) value }

/-- `GraphiteServer._data_as_msg` (lines 109-114): one timestamp `now` is
captured per call and every batch entry is rendered as
`"%s %s %s\n" % (key, val, now)`.  The clock value is modelled as the
integer count of seconds (real wall-clock time is external input). -/
def GraphiteServer.data_as_msg (g : GraphiteServer) (now : Nat) : String :=
  g.data.foldl
    (fun msg kv => msg ++ (kv.1 ++ " " ++ toString kv.2 ++ " " ++ toString now ++ "\n"))
    ""

/-- `GraphiteServer.send` (lines 116-129), with the two fallible socket
effects made explicit: `connect` models socket creation plus
`s.connect((self.server, self.port))`, and `sendall` models
`s.sendall(formatted_data)`.  Any raised exception is caught and converted
into a `false` result; the batch `self.data` is never touched. -/
def GraphiteServer.send (g : GraphiteServer) (now : Nat)
    (connect : String → Int → Except String Unit)
    (sendall : String → Except String Unit) : Bool × GraphiteServer :=
  let formatted_data := g.data_as_msg now
  match connect g.server g.port with
  | .error _ => (false, g)
  | .ok _ =>
      match sendall formatted_data with
      | .error _ => (false, g)
      | .ok _ => (true, g)

/-- The per-label body of the loop on lines 161-173. -/
def addLabelStats (jenkins : JenkinsData) (g : GraphiteServer) (lbl : String) :
    GraphiteServer :=
  let label_info := jenkins.labelInfo lbl
  let g := g.add_data ("labels." ++ lbl ++ ".jobs.tiedJobs")
    ((label_info.tiedJobs.getD []).length : Int)
  let g := g.add_data ("labels." ++ lbl ++ ".nodes.total")
    ((label_info.nodes.getD []).length : Int)
  let g := g.add_data ("labels." ++ lbl ++ ".executors.total")
    (label_info.totalExecutors.getD 0)
  let g := g.add_data ("labels." ++ lbl ++ ".executors.busy")
    (label_info.busyExecutors.getD 0)
  g.add_data ("labels." ++ lbl ++ ".executors.free")
    (label_info.totalExecutors.getD 0 - label_info.busyExecutors.getD 0)

/-- The batch-building part of `gather_and_send_stats` (lines 132-184);
the final `graphite.send()` call on line 186 is `GraphiteServer.send`.
Python truthiness of `opts['--labels']` (a list) is emptiness, and of
`opts['--jobs']` (`None` or a string) is presence of a non-empty string. -/
def gather_stats (opts : Opts) (jenkins : JenkinsData)
    (graphite : GraphiteServer) : GraphiteServer :=
  let executor_info := jenkins.computer
  let queue_info := jenkins.queue
  let build_info_min := jenkins.build_info_min
  let build_info_hour := jenkins.build_info_hour
  let g := graphite.add_data "queue.size" ((queue_info.items.getD []).length : Int)
  let g := g.add_data "builds.started_builds_last_minute"
    ((build_info_min.events.getD []).length : Int)
  let g := g.add_data "builds.started_builds_last_hour"
    ((build_info_hour.events.getD []).length : Int)
  let g := g.add_data "executors.total" (executor_info.totalExecutors.getD 0)
  let g := g.add_data "executors.busy" (executor_info.busyExecutors.getD 0)
  let g := g.add_data "executors.free"
    (executor_info.totalExecutors.getD 0 - executor_info.busyExecutors.getD 0)
  let nodes_total := executor_info.computer.getD []
  let nodes_offline := nodes_total.filter (fun j => j.offline.getD false)
  let g := g.add_data "nodes.total" (nodes_total.length : Int)
  let g := g.add_data "nodes.offline" (nodes_offline.length : Int)
  let g := g.add_data "nodes.online"
    ((nodes_total.length : Int) - (nodes_offline.length : Int))
  let g := if opts.labels.isEmpty then g
    else opts.labels.foldl (addLabelStats jenkins) g
  match opts.jobs with
  | none => g
  | some view =>
      if view = "" then g
      else
        let builds_info := jenkins.viewInfo view
        let jobs := builds_info.jobs.getD []
        let ok := jobs.filter (fun j => j.color = some "blue")
        let fail := jobs.filter (fun j => j.color = some "red")
        let warn := jobs.filter (fun j => j.color = some "yellow")
        let g := g.add_data "jobs.total" (jobs.length : Int)
        let g := g.add_data "jobs.ok" (ok.length : Int)
        let g := g.add_data "jobs.fail" (fail.length : Int)
        g.add_data "jobs.warn" (warn.length : Int)

/-- `gather_and_send_stats` (lines 132-186): build the batch, then perform
the single best-effort send. -/
def gather_and_send_stats (opts : Opts) (jenkins : JenkinsData)
    (graphite : GraphiteServer) (now : Nat)
    (connect : String → Int → Except String Unit)
    (sendall : String → Except String Unit) : Bool × GraphiteServer :=
  (gather_stats opts jenkins graphite).send now connect sendall

/-- The batch keys seen by one entry rendered per line with a shared
timestamp: the natural recursive reading of the loop on lines 112-113. -/
def renderedLines (data : List (String × Int)) (now : Nat) : String :=
  match data with
  | [] => ""
  | kv :: rest =>
      (kv.1 ++ " " ++ toString kv.2 ++ " " ++ toString now ++ "\n")
        ++ renderedLines rest now

/-- Every key of the batch starts with the server's metric root followed by
a dot. -/
def Prefixed (g : GraphiteServer) : Prop :=
  ∀ kv ∈ g.data, ∃ rest, kv.1 = g.pfx ++ "." ++ rest

/-- The three color values recognized by the job partition
(lines 178-180). -/
def recognizedColor (j : Job) : Prop :=
  j.color = some "blue" ∨ j.color = some "red" ∨ j.color = some "yellow"

instance (j : Job) : Decidable (recognizedColor j) := by
  unfold recognizedColor
  infer_instance

/-- The executor record of the end-to-end scenario:
`{totalExecutors: 5, busyExecutors: 2, computer: [{offline:false},{offline:true}]}`. -/
def sampleExecutorInfo : ExecutorInfo :=
  { totalExecutors := some 5, busyExecutors := some 2,
    computer := some [{ offline := some false }, { offline := some true }] }

/-- Fetch results of the end-to-end scenario: queue record `{items: [a,b]}`,
minute and hour build records `{events: []}`, and no data behind any label
or view. -/
def sampleJenkins : JenkinsData :=
  { computer := sampleExecutorInfo,
    queue := { items := some [QueueItem.mk, QueueItem.mk] },
    build_info_min := { events := some [] },
    build_info_hour := { events := some [] },
    labelInfo := fun _ => { tiedJobs := none, nodes := none,
                            totalExecutors := none, busyExecutors := none },
    viewInfo := fun _ => { jobs := none } }

/-- Sample fetch results whose configured job view resolves to the given
job list. -/
def jenkinsWithJobs (jobs : List Job) : JenkinsData :=
  { sampleJenkins with viewInfo := fun _ => { jobs := some jobs } }

/-- Sample fetch results whose executor record is
`{computer: [entry]}` (no other keys). -/
def nodeJenkins (entry : ComputerEntry) : JenkinsData :=
  { sampleJenkins with
    computer := { totalExecutors := none, busyExecutors := none,
                  computer := some [entry] } }

/-- Sample fetch results with the given executor record. -/
def jenkinsWithExecutors (e : ExecutorInfo) : JenkinsData :=
  { sampleJenkins with computer := e }

/-- A freshly initialised sink with the default metric root `jenkins`. -/
def sampleGraphite : GraphiteServer :=
  GraphiteServer.init "graphite.example.com" 2003 "jenkins"

/-- A transport where socket creation and connect succeed. -/
def okConnect : String → Int → Except String Unit := fun _ _ => .ok ()

/-- A transport where the write succeeds. -/
def okSendall : String → Except String Unit := fun _ => .ok ()

/-- A transport where connect raises (unreachable destination). -/
def failConnect : String → Int → Except String Unit :=
  fun _ _ => .error "Connection refused"

/-- `ast.literal_eval` on a body that is not a well-formed literal
structure: it raises `ValueError: malformed node or string`. -/
def malformedEval : String → Except String RawRecord :=
  fun _ => .error "malformed node or string"

/-- C1: in the fixed-input gathering pass (queue `{items: [a,b]}`, executors
`{totalExecutors: 5, busyExecutors: 2, computer: [{offline:false},{offline:true}]}`,
empty minute/hour event records, no labels, no job view), the batch produced
by `gather_and_send_stats` holds exactly the nine expected entries under the
configured root `jenkins`, and no others. -/
theorem gather_fixed_scenario_batch :
    (gather_and_send_stats { labels := [], jobs := none } sampleJenkins
        sampleGraphite 0 okConnect okSendall).2.data =
      [("jenkins.queue.size", 2),
       ("jenkins.builds.started_builds_last_minute", 0),
       ("jenkins.builds.started_builds_last_hour", 0),
       ("jenkins.executors.total", 5),
       ("jenkins.executors.busy", 2),
       ("jenkins.executors.free", 3),
       ("jenkins.nodes.total", 2),
       ("jenkins.nodes.offline", 1),
       ("jenkins.nodes.online", 1)] := by decide

/-- C5: for every executor-summary record (fields defaulting to 0 when
absent), the emitted `executors.free` equals `totalExecutors` minus
`busyExecutors` exactly; no clamping happens, so an inconsistent record
with `busyExecutors` exceeding `totalExecutors` yields a negative value
passed through unmodified. -/
theorem executors_free_unclamped (e : ExecutorInfo) :
    List.lookup "jenkins.executors.free"
        (gather_stats { labels := [], jobs := none } (jenkinsWithExecutors e)
          sampleGraphite).data =
      some (e.totalExecutors.getD 0 - e.busyExecutors.getD 0) ∧
    List.lookup "jenkins.executors.free"
        (gather_stats { labels := [], jobs := none }
          (jenkinsWithExecutors
            { totalExecutors := some 1, busyExecutors := some 3, computer := none })
          sampleGraphite).data = some (-2) :=
  ⟨rfl, by decide⟩

/-- C8: for every executor-summary record, the emitted node counters
satisfy `nodes.online + nodes.offline = nodes.total`, where `nodes.total`
is the length of the `computer` sequence, `nodes.offline` the count of
entries whose `offline` flag is true, and `nodes.online` their
difference. -/
theorem nodes_online_offline_total (e : ExecutorInfo) :
    List.lookup "jenkins.nodes.total"
        (gather_stats { labels := [], jobs := none } (jenkinsWithExecutors e)
          sampleGraphite).data =
      some ((e.computer.getD []).length : Int) ∧
    List.lookup "jenkins.nodes.offline"
        (gather_stats { labels := [], jobs := none } (jenkinsWithExecutors e)
          sampleGraphite).data =
      some (((e.computer.getD []).filter (fun j => j.offline.getD false)).length : Int) ∧
    List.lookup "jenkins.nodes.online"
        (gather_stats { labels := [], jobs := none } (jenkinsWithExecutors e)
          sampleGraphite).data =
      some (((e.computer.getD []).length : Int)
        - (((e.computer.getD []).filter (fun j => j.offline.getD false)).length : Int)) ∧
    (((e.computer.getD []).length : Int)
        - (((e.computer.getD []).filter (fun j => j.offline.getD false)).length : Int))
      + (((e.computer.getD []).filter (fun j => j.offline.getD false)).length : Int)
      = ((e.computer.getD []).length : Int) :=
  ⟨rfl, rfl, rfl, by ring⟩

/-- C10: a computer entry whose `offline` field is absent, or present with
a falsy value, is counted as online: the record `{computer: [{}]}` yields
`nodes.total = 1`, `nodes.offline = 0`, `nodes.online = 1`, and so does
`{computer: [{offline: false}]}`. -/
theorem offline_absent_or_falsy_counts_online :
    (List.lookup "jenkins.nodes.total"
        (gather_stats { labels := [], jobs := none }
          (nodeJenkins { offline := none }) sampleGraphite).data = some 1 ∧
     List.lookup "jenkins.nodes.offline"
        (gather_stats { labels := [], jobs := none }
          (nodeJenkins { offline := none }) sampleGraphite).data = some 0 ∧
     List.lookup "jenkins.nodes.online"
        (gather_stats { labels := [], jobs := none }
          (nodeJenkins { offline := none }) sampleGraphite).data = some 1) ∧
    (List.lookup "jenkins.nodes.total"
        (gather_stats { labels := [], jobs := none }
          (nodeJenkins { offline := some false }) sampleGraphite).data = some 1 ∧
     List.lookup "jenkins.nodes.offline"
        (gather_stats { labels := [], jobs := none }
          (nodeJenkins { offline := some false }) sampleGraphite).data = some 0 ∧
     List.lookup "jenkins.nodes.online"
        (gather_stats { labels := [], jobs := none }
          (nodeJenkins { offline := some false }) sampleGraphite).data = some 1) := by
  decide

/-- C2 counterexample: a response with success status whose body is not a
well-formed literal structure does not yield an empty record — the
`ast.literal_eval` exception propagates out of `get_raw_data`, because the
source catches nothing (lines 73-80 handle only a non-success status). -/
theorem get_raw_data_raises_on_malformed_body :
    get_raw_data (Except.ok { status_code := 200, text := "][" }) malformedEval =
      Except.error "malformed node or string" := rfl

/-- C2 (amended): a non-success HTTP status is the only handled failure and
yields an empty record; a transport error raised by the HTTP call and a
parse error on a malformed body both propagate to the caller. -/
theorem get_raw_data_failure_modes
    (literal_eval : String → Except String RawRecord)
    (r r2 : HttpResponse) (e : String)
    (h : r.status_code ≠ 200) (h2 : r2.status_code = 200) :
    get_raw_data (Except.ok r) literal_eval = Except.ok ([] : RawRecord) ∧
    get_raw_data (Except.error e) literal_eval = Except.error e ∧
    get_raw_data (Except.ok r2) literal_eval = literal_eval r2.text := by
  refine ⟨?_, rfl, ?_⟩
  · simp [get_raw_data, h]
  · simp [get_raw_data, h2]

/-- C2 witness: the amended behaviour at concrete inputs — a 503 response
degrades to the empty record, while a transport exception and a malformed
200 body propagate. -/
theorem get_raw_data_failure_modes_witness :
    get_raw_data (Except.ok { status_code := 503, text := "Service Unavailable" })
        malformedEval = Except.ok ([] : RawRecord) ∧
    get_raw_data (Except.error "connection timed out") malformedEval =
      Except.error "connection timed out" ∧
    get_raw_data (Except.ok { status_code := 200, text := "][" }) malformedEval =
      malformedEval "][" :=
  get_raw_data_failure_modes malformedEval
    { status_code := 503, text := "Service Unavailable" }
    { status_code := 200, text := "][" }
    "connection timed out" (by decide) rfl

/-- C3: `_data_as_msg` captures a single timestamp and renders every batch
entry as the line `"<name> <value> <timestamp>\n"` with that shared
timestamp; in particular, for root `jenkins`, single entry
`queue.size = 3` and timestamp `1700000000`, the payload is exactly
`"jenkins.queue.size 3 1700000000\n"`. -/
theorem data_as_msg_line_format :
    GraphiteServer.data_as_msg
        { server := "h", port := 2003, pfx := "jenkins",
          data := [("jenkins.queue.size", 3)] } 1700000000 =
      "jenkins.queue.size 3 1700000000\n" ∧
    ∀ (g : GraphiteServer) (now : Nat),
      g.data_as_msg now = renderedLines g.data now := by
  constructor
  · decide
  · intro g now
    show List.foldl _ "" g.data = _
    suffices h : ∀ (l : List (String × Int)) (acc : String),
        List.foldl
            (fun msg kv =>
              msg ++ (kv.1 ++ " " ++ toString kv.2 ++ " " ++ toString now ++ "\n"))
            acc l
          = acc ++ renderedLines l now by
      simpa using h g.data ""
    intro l
    induction l with
    | nil => intro acc; simp [renderedLines]
    | cons kv rest ih =>
        intro acc
        simp only [List.foldl_cons, renderedLines, ih]
        simp [String.append_assoc]

/-- C6: any exception during connect or write makes `send` return `false`
rather than propagate, and the sink state — batch included — is exactly
what it was before the call. -/
theorem send_failure_returns_false_batch_unchanged
    (g : GraphiteServer) (now : Nat)
    (connect : String → Int → Except String Unit)
    (sendall : String → Except String Unit)
    (h : (∃ e, connect g.server g.port = Except.error e) ∨
         (connect g.server g.port = Except.ok () ∧
          ∃ e, sendall (g.data_as_msg now) = Except.error e)) :
    (g.send now connect sendall).1 = false ∧
    (g.send now connect sendall).2 = g := by
  unfold GraphiteServer.send
  rcases h with ⟨e, he⟩ | ⟨hc, e, he⟩
  · simp [he]
  · simp [hc, he]

/-- C6 witness: a sink pointed at an unreachable destination — connect
raises — returns `false` from `send` with its state unchanged. -/
theorem send_failure_witness :
    (sampleGraphite.send 0 failConnect okSendall).1 = false ∧
    (sampleGraphite.send 0 failConnect okSendall).2 = sampleGraphite :=
  send_failure_returns_false_batch_unchanged sampleGraphite 0 failConnect okSendall
    (Or.inl ⟨"Connection refused", rfl⟩)

/-- Writing the same key twice collapses to the last write. -/
theorem setEntry_setEntry_same (l : List (String × Int)) (key : String)
    (v1 v2 : Int) : setEntry (setEntry l key v1) key v2 = setEntry l key v2 := by
  induction l with
  | nil => simp [setEntry]
  | cons kv rest ih =>
      obtain ⟨k, v⟩ := kv
      by_cases h : k = key
      · subst h
        simp [setEntry]
      · simp [setEntry, h, ih]

/-- Every entry of an updated mapping is an old entry or the new pair. -/
theorem mem_setEntry {l : List (String × Int)} {key : String} {v : Int}
    {x : String × Int} (hx : x ∈ setEntry l key v) : x ∈ l ∨ x = (key, v) := by
  induction l with
  | nil => simpa [setEntry] using hx
  | cons kv rest ih =>
      obtain ⟨k, w⟩ := kv
      by_cases h : k = key
      · subst h
        have hx2 : x = (k, v) ∨ x ∈ rest := by simpa [setEntry] using hx
        rcases hx2 with rfl | h1
        · exact Or.inr rfl
        · exact Or.inl (List.mem_cons_of_mem _ h1)
      · have hx2 : x = (k, w) ∨ x ∈ setEntry rest key v := by
          simpa [setEntry, h] using hx
        rcases hx2 with rfl | h1
        · exact Or.inl (List.mem_cons_self _ _)
        · rcases ih h1 with h2 | h2
          · exact Or.inl (List.mem_cons_of_mem _ h2)
          · exact Or.inr h2

/-- Every key of an updated mapping is an old key or the written key. -/
theorem mem_keys_setEntry {l : List (String × Int)} {key : String} {v : Int}
    {a : String} (ha : a ∈ (setEntry l key v).map Prod.fst) :
    a ∈ l.map Prod.fst ∨ a = key := by
  simp only [List.mem_map] at ha
  obtain ⟨x, hx, rfl⟩ := ha
  rcases mem_setEntry hx with h | rfl
  · exact Or.inl (List.mem_map_of_mem _ h)
  · exact Or.inr rfl

/-- Mapping update preserves distinctness of the keys. -/
theorem nodup_keys_setEntry {l : List (String × Int)} (key : String) (v : Int)
    (h : (l.map Prod.fst).Nodup) : ((setEntry l key v).map Prod.fst).Nodup := by
  induction l with
  | nil => simp [setEntry]
  | cons kv rest ih =>
      obtain ⟨k, w⟩ := kv
      simp only [List.map_cons, List.nodup_cons] at h
      by_cases hk : k = key
      · subst hk
        simpa [setEntry] using h
      · simp only [setEntry, if_neg hk, List.map_cons, List.nodup_cons]
        refine ⟨fun hmem => ?_, ih h.2⟩
        rcases mem_keys_setEntry hmem with hm | rfl
        · exact h.1 hm
        · exact hk rfl

/-- A mapping without the key has no entry at it. -/
theorem filter_eq_nil_of_not_mem_keys {l : List (String × Int)} {key : String}
    (h : key ∉ l.map Prod.fst) :
    l.filter (fun kv => kv.1 == key) = [] := by
  induction l with
  | nil => rfl
  | cons kv rest ih =>
      simp only [List.map_cons, List.mem_cons] at h
      push_neg at h
      rw [List.filter_cons]
      have : (kv.1 == key) = false := by
        simpa using fun hc => h.1 hc.symm
      rw [this]
      simpa using ih h.2

/-- On a mapping with distinct keys, after an update the entries at the
written key are exactly the new pair. -/
theorem filter_setEntry_self {l : List (String × Int)} {key : String} {v : Int}
    (h : (l.map Prod.fst).Nodup) :
    (setEntry l key v).filter (fun kv => kv.1 == key) = [(key, v)] := by
  induction l with
  | nil => simp [setEntry]
  | cons kv rest ih =>
      obtain ⟨k, w⟩ := kv
      simp only [List.map_cons, List.nodup_cons] at h
      by_cases hk : k = key
      · subst hk
        have hrest : rest.filter (fun kv => kv.1 == k) = [] :=
          filter_eq_nil_of_not_mem_keys h.1
        simp [setEntry, List.filter_cons, hrest]
      · have hne : (k == key) = false := by simpa using hk
        simp only [setEntry, if_neg hk, List.filter_cons, hne]
        simpa using ih h.2

/-- C7: `add_data` is last-write-wins — after `add_data "x.y" 1` then
`add_data "x.y" 2`, the batch holds exactly one entry for the qualified
name `<root>.x.y`, with value 2, and (given the keys were distinct before,
as they are in every reachable batch) no duplicate key exists
afterwards. -/
theorem add_data_last_write_wins (g : GraphiteServer)
    (h : (g.data.map Prod.fst).Nodup) :
    ((g.add_data "x.y" 1).add_data "x.y" 2).data.filter
        (fun kv => kv.1 == g.pfx ++ "." ++ "x.y") =
      [(g.pfx ++ "." ++ "x.y", 2)] ∧
    (((g.add_data "x.y" 1).add_data "x.y" 2).data.map Prod.fst).Nodup := by
  constructor
  · show (setEntry (setEntry g.data (g.pfx ++ "." ++ "x.y") 1)
        (g.pfx ++ "." ++ "x.y") 2).filter _ = _
    rw [setEntry_setEntry_same]
    exact filter_setEntry_self h
  · exact nodup_keys_setEntry _ _ (nodup_keys_setEntry _ _ h)

/-- C7 witness: the last-write-wins property at a freshly initialised
sink, whose batch is empty and trivially has distinct keys. -/
theorem add_data_last_write_wins_witness :
    ((sampleGraphite.add_data "x.y" 1).add_data "x.y" 2).data.filter
        (fun kv => kv.1 == sampleGraphite.pfx ++ "." ++ "x.y") =
      [(sampleGraphite.pfx ++ "." ++ "x.y", 2)] ∧
    (((sampleGraphite.add_data "x.y" 1).add_data "x.y" 2).data.map
        Prod.fst).Nodup :=
  add_data_last_write_wins sampleGraphite (by simp [sampleGraphite, GraphiteServer.init])

/-- `add_data` writes only keys of the form `<root>.<name>`, so it
preserves the prefix invariant. -/
theorem prefixed_add_data {g : GraphiteServer} (key : String) (value : Int)
    (h : Prefixed g) : Prefixed (g.add_data key value) := by
  intro kv hkv
  have hkv2 : kv ∈ setEntry g.data (g.pfx ++ "." ++ key) value := hkv
  rcases mem_setEntry hkv2 with hm | rfl
  · exact h kv hm
  · exact ⟨key, rfl⟩

/-- The per-label derivations preserve the prefix invariant. -/
theorem prefixed_addLabelStats (jenkins : JenkinsData) (lbl : String)
    {g : GraphiteServer} (h : Prefixed g) :
    Prefixed (addLabelStats jenkins g lbl) := by
  unfold addLabelStats
  exact prefixed_add_data _ _ (prefixed_add_data _ _ (prefixed_add_data _ _
    (prefixed_add_data _ _ (prefixed_add_data _ _ h))))

/-- The label loop preserves the prefix invariant. -/
theorem prefixed_foldl_labels (jenkins : JenkinsData) (ls : List String)
    {g : GraphiteServer} (h : Prefixed g) :
    Prefixed (ls.foldl (addLabelStats jenkins) g) := by
  induction ls generalizing g with
  | nil => exact h
  | cons a t ih => exact ih (prefixed_addLabelStats jenkins a h)

/-- C9: the sink is the sole owner of prefix application — every metric
name in a batch built by a gathering pass begins with the configured root
followed by a dot, provided the starting batch already did (in a run the
batch starts empty). -/
theorem gather_stats_prefixed (opts : Opts) (jenkins : JenkinsData)
    (g : GraphiteServer) (h : Prefixed g) :
    Prefixed (gather_stats opts jenkins g) := by
  have hchain : ∀ g2 : GraphiteServer, Prefixed g2 →
      Prefixed (if opts.labels.isEmpty then g2
        else opts.labels.foldl (addLabelStats jenkins) g2) := by
    intro g2 h2
    split
    · exact h2
    · exact prefixed_foldl_labels jenkins opts.labels h2
  unfold gather_stats
  rcases hj : opts.jobs with _ | view
  · dsimp only
    apply hchain
    repeat' apply prefixed_add_data
    exact h
  · dsimp only
    split
    · apply hchain
      repeat' apply prefixed_add_data
      exact h
    · repeat' apply prefixed_add_data
      apply hchain
      repeat' apply prefixed_add_data
      exact h

/-- C9 witness: a gathering pass from a freshly initialised sink yields a
batch whose every key carries the configured root. -/
theorem gather_stats_prefixed_witness :
    Prefixed (gather_stats { labels := [], jobs := none } sampleJenkins
      sampleGraphite) :=
  gather_stats_prefixed { labels := [], jobs := none } sampleJenkins
    sampleGraphite
    (by intro kv hkv; simp [sampleGraphite, GraphiteServer.init] at hkv)

/-- The three color buckets plus the unrecognized remainder partition any
job list: their sizes sum to its length. -/
theorem length_filter_colors (jobs : List Job) :
    (jobs.filter (fun j => j.color = some "blue")).length
      + (jobs.filter (fun j => j.color = some "red")).length
      + (jobs.filter (fun j => j.color = some "yellow")).length
      + (jobs.filter (fun j => ¬ recognizedColor j)).length = jobs.length := by
  induction jobs with
  | nil => rfl
  | cons j t ih =>
      simp only [List.filter_cons, List.length_cons]
      simp only [decide_not] at ih ⊢
      rcases hc : j.color with _ | c
      · have hr : ¬ recognizedColor j := by simp [recognizedColor, hc]
        simp only [hc, hr]
        simp
        omega
      · by_cases h1 : c = "blue"
        · subst h1
          have hr : recognizedColor j := Or.inl hc
          simp only [hc, hr]
          simp
          omega
        · by_cases h2 : c = "red"
          · subst h2
            have hr : recognizedColor j := Or.inr (Or.inl hc)
            simp only [hc, hr]
            simp [h1]
            omega
          · by_cases h3 : c = "yellow"
            · subst h3
              have hr : recognizedColor j := Or.inr (Or.inr hc)
              simp only [hc, hr]
              simp [h1, h2]
              omega
            · have hr : ¬ recognizedColor j := by
                simp [recognizedColor, hc, h1, h2, h3]
              simp only [hc, hr]
              simp [h1, h2, h3]
              omega

set_option maxHeartbeats 2000000 in
/-- C4: in a gathering pass with a job view configured, `jobs.ok`,
`jobs.fail` and `jobs.warn` count the jobs whose color is exactly `blue`,
`red` and `yellow` respectively, `jobs.total` is the length of the job
list, and consequently `ok + fail + warn ≤ total`, with equality exactly
when every job's color is one of the three recognized values. -/
theorem jobs_view_partition (jobs : List Job) :
    List.lookup "jenkins.jobs.total"
        (gather_stats { labels := [], jobs := some "Build" }
          (jenkinsWithJobs jobs) sampleGraphite).data =
      some (jobs.length : Int) ∧
    List.lookup "jenkins.jobs.ok"
        (gather_stats { labels := [], jobs := some "Build" }
          (jenkinsWithJobs jobs) sampleGraphite).data =
      some ((jobs.filter (fun j => j.color = some "blue")).length : Int) ∧
    List.lookup "jenkins.jobs.fail"
        (gather_stats { labels := [], jobs := some "Build" }
          (jenkinsWithJobs jobs) sampleGraphite).data =
      some ((jobs.filter (fun j => j.color = some "red")).length : Int) ∧
    List.lookup "jenkins.jobs.warn"
        (gather_stats { labels := [], jobs := some "Build" }
          (jenkinsWithJobs jobs) sampleGraphite).data =
      some ((jobs.filter (fun j => j.color = some "yellow")).length : Int) ∧
    (jobs.filter (fun j => j.color = some "blue")).length
      + (jobs.filter (fun j => j.color = some "red")).length
      + (jobs.filter (fun j => j.color = some "yellow")).length ≤ jobs.length ∧
    ((jobs.filter (fun j => j.color = some "blue")).length
        + (jobs.filter (fun j => j.color = some "red")).length
        + (jobs.filter (fun j => j.color = some "yellow")).length = jobs.length
      ↔ ∀ j ∈ jobs, recognizedColor j) := by
  have hkey := length_filter_colors jobs
  refine ⟨rfl, rfl, rfl, rfl, by omega, ?_, ?_⟩
  · intro he
    have hzero : (jobs.filter (fun j => ¬ recognizedColor j)).length = 0 := by
      omega
    have hnil : jobs.filter (fun j => ¬ recognizedColor j) = [] :=
      List.length_eq_zero.mp hzero
    intro j hj
    by_contra hnr
    have hmem : j ∈ jobs.filter (fun j => ¬ recognizedColor j) :=
      List.mem_filter.mpr ⟨hj, by simpa using hnr⟩
    rw [hnil] at hmem
    cases hmem
  · intro hall
    have hnil : jobs.filter (fun j => ¬ recognizedColor j) = [] :=
      List.filter_eq_nil_iff.mpr (fun a ha => by simpa using hall a ha)
    rw [hnil] at hkey
    simpa using hkey

end JenkinsToGraphite
